import Mathlib

/-
  Verification development for the `auth` package of the bbranch CLI
  (OAuth 2.0 Authorization Code + PKCE flow).

  The Go source is shallowly embedded:
  - `time.Time` instants are modelled as `Int` Unix seconds; the 30-second
    refresh buffer is the integer 30.
  - the token file on disk is a `FileState` (absent, malformed, or a parsed
    JSON value); `os.ReadFile` / `os.WriteFile` become explicit state passing.
  - the network is an oracle mapping a request to the `HttpResult` the token
    endpoint would return; `doTokenRequest` is embedded over that result.
  - the `sync.Mutex` held for the whole body of `GetToken` serialises
    concurrent callers, so a set of concurrent calls is modelled as a
    sequence of atomic calls (`runGetTokenCalls`).
-/

namespace BBranchAuth

/-- Token mirrors the Go struct `Token` (part_011 lines 31-35); `ExpiresAt`
is an absolute Unix-second timestamp. -/
structure Token where
  accessToken : String
  refreshToken : String
  expiresAt : Int
  deriving DecidableEq

/-- Jval is a JSON value tree as far as the token store needs one: string
leaves, timestamp leaves (a `time.Time` node, held at second precision),
and objects. -/
inductive Jval where
  | jstr (s : String)
  | jtime (n : Int)
  | jobj (fields : List (String × Jval))

/-- jlookup finds the first field with the given key, as Go json decoding
does for a struct field. -/
def jlookup (fields : List (String × Jval)) (key : String) : Option Jval :=
  match fields with
  | [] => none
  | (k, v) :: rest => if k = key then some v else jlookup rest key

/-- getStrField models Go json decoding of a `string` struct field: absent
field leaves the zero value "", a present field of the wrong type is a
decode error (`none`). -/
def getStrField (fields : List (String × Jval)) (key : String) : Option String :=
  match jlookup fields key with
  | none => some ""
  | some (.jstr s) => some s
  | some _ => none

/-- getTimeField models Go json decoding of a `time.Time` struct field:
absent field leaves the zero time (modelled 0), a present field of the
wrong type is a decode error. -/
def getTimeField (fields : List (String × Jval)) (key : String) : Option Int :=
  match jlookup fields key with
  | none => some 0
  | some (.jtime n) => some n
  | some _ => none

/-- marshalToken embeds `json.MarshalIndent(token, ...)` in `saveToken`
(part_011 line 244): the three struct fields in declaration order under
their json tags. -/
def marshalToken (t : Token) : Jval :=
  .jobj [("access_token", .jstr t.accessToken),
         ("refresh_token", .jstr t.refreshToken),
         ("expires_at", .jtime t.expiresAt)]

/-- unmarshalToken embeds `json.Unmarshal(data, &token)` in `loadToken`
(part_011 line 264): a non-object document or a wrongly-typed field is a
decode error; absent fields keep their zero values. -/
def unmarshalToken (j : Jval) : Option Token :=
  match j with
  | .jobj fields =>
    match getStrField fields "access_token" with
    | none => none
    | some a =>
      match getStrField fields "refresh_token" with
      | none => none
      | some r =>
        match getTimeField fields "expires_at" with
        | none => none
        | some e => some ⟨a, r, e⟩
  | _ => none

/-- FileContent is the byte content of the token file: either a valid JSON
document or malformed bytes that `json.Unmarshal` rejects outright. -/
inductive FileContent where
  | json (j : Jval)
  | malformed

/-- parseFileContent is the composite parse of the file content into a
Token: malformed bytes or a shape mismatch both fail. -/
def parseFileContent (c : FileContent) : Option Token :=
  match c with
  | .malformed => none
  | .json j => unmarshalToken j

/-- FileState is the state of `~/.bbranch/token.json`: `none` when the file
does not exist. -/
abbrev FileState := Option FileContent

/-- LoadError distinguishes the two failure classes `loadToken` propagates:
the `os.ReadFile` not-found error (spec name: NotLoggedIn) and a
`json.Unmarshal` failure (spec name: CorruptTokenStore). -/
inductive LoadError where
  | fileNotFound
  | parseError
  deriving DecidableEq

/-- loadToken embeds `loadToken` (part_011 lines 252-268): read the file,
propagating the not-found error, then unmarshal, propagating the parse
error. -/
def loadToken (fs : FileState) : Except LoadError Token :=
  match fs with
  | none => .error .fileNotFound
  | some c =>
    match parseFileContent c with
    | none => .error .parseError
    | some t => .ok t

/-- saveToken embeds `saveToken` (part_011 lines 234-250): marshal the token
and overwrite the file content, whatever was there before. -/
def saveToken (t : Token) (_fs : FileState) : FileState :=
  some (.json (marshalToken t))

/-- TokenResponseBody is a parseable JSON object body at the token endpoint,
carrying every field either of the two Go response structs in
`doTokenRequest` could pick up; absent fields are the zero values. -/
structure TokenResponseBody where
  access_token : String
  refresh_token : String
  expires_in : Int
  error : String
  error_description : String
  deriving DecidableEq

/-- HttpBody is the response body: a parseable JSON object or bytes that
`json.NewDecoder(...).Decode` rejects. -/
inductive HttpBody where
  | valid (j : TokenResponseBody)
  | malformed
  deriving DecidableEq

/-- HttpResult is the outcome of `http.DefaultClient.Do`: a connection-level
failure, or a response with a status code and a body. -/
inductive HttpResult where
  | transportFailure
  | response (status : Nat) (body : HttpBody)
  deriving DecidableEq

/-- ExchangeError is the error taxonomy of `doTokenRequest`: transport
failure, a non-OK status with the decoded error pair, or an unparseable
success body. -/
inductive ExchangeError where
  | transportFailure
  | tokenExchangeFailed (status : Nat) (err desc : String)
  | responseDecodeFailed
  deriving DecidableEq

/-- doTokenRequest embeds `doTokenRequest` (part_011 lines 202-232): a
transport failure propagates; a status other than `http.StatusOK` (200)
fails with the decoded error pair, where a decode failure of the error body
is ignored and leaves the zero values; a 200 response is decoded into the
token struct, a decode failure failing the call, and on success `ExpiresAt`
is `now + expires_in` seconds. -/
def doTokenRequest (now : Int) (res : HttpResult) : Except ExchangeError Token :=
  match res with
  | .transportFailure => .error .transportFailure
  | .response status body =>
    if status ≠ 200 then
      match body with
      | .valid j => .error (.tokenExchangeFailed status j.error j.error_description)
      | .malformed => .error (.tokenExchangeFailed status "" "")
    else
      match body with
      | .malformed => .error .responseDecodeFailed
      | .valid j => .ok ⟨j.access_token, j.refresh_token, now + j.expires_in⟩

/-- Network is the oracle for the refresh-grant request: given the client
credentials (sent as HTTP Basic auth) and the refresh token in the form
body, it yields the HTTP result the token endpoint returns. -/
abbrev Network := String → String → String → HttpResult

/-- refreshToken embeds `refreshToken` (part_011 lines 185-199): build the
refresh-grant request for the credentials and refresh token and run it
through `doTokenRequest`. -/
def refreshToken (now : Int) (net : Network)
    (clientID clientSecret refresh : String) : Except ExchangeError Token :=
  doTokenRequest now (net clientID clientSecret refresh)

/-- GetTokenError is the error taxonomy of `GetToken`: a load failure
wrapped with the not-logged-in remediation text, or a refresh failure
wrapped with the re-login remediation text. -/
inductive GetTokenError where
  | notLoggedIn (e : LoadError)
  | refreshFailed (e : ExchangeError)
  deriving DecidableEq

/-- GetTokenResult packages one `GetToken` call: the returned value, the
token-file state after the call, and how many refresh requests the call
issued to the token endpoint. -/
structure GetTokenResult where
  result : Except GetTokenError String
  store : FileState
  refreshCalls : Nat

/-- GetToken embeds `GetToken` (part_011 lines 142-163). The whole body runs
under `tokenMu`, so the function is one atomic step: load the stored token
(failure wrapped as not-logged-in); if `time.Now().After(ExpiresAt - 30s)`,
that is `expiresAt - 30 < now`, refresh and persist the result; otherwise
return the stored access token untouched. -/
def GetToken (clientID clientSecret : String) (now : Int) (net : Network)
    (fs : FileState) : GetTokenResult :=
  match loadToken fs with
  | .error e => ⟨.error (.notLoggedIn e), fs, 0⟩
  | .ok token =>
    if token.expiresAt - 30 < now then
      match refreshToken now net clientID clientSecret token.refreshToken with
      | .error e => ⟨.error (.refreshFailed e), fs, 1⟩
      | .ok t => ⟨.ok t.accessToken, saveToken t fs, 1⟩
    else
      ⟨.ok token.accessToken, fs, 0⟩

/-- runGetTokenCalls runs `n` GetToken calls back to back, which is exactly
what any interleaving of `n` concurrent callers reduces to, because each
call holds `tokenMu` for its entire body. It collects every result, the
final file state, and the total number of refresh requests issued. -/
def runGetTokenCalls (clientID clientSecret : String) (now : Int) (net : Network) :
    Nat → FileState → List (Except GetTokenError String) × FileState × Nat
  | 0, fs => ([], fs, 0)
  | n + 1, fs =>
    let r := GetToken clientID clientSecret now net fs
    let rest := runGetTokenCalls clientID clientSecret now net n r.store
    (r.result :: rest.1, rest.2.1, r.refreshCalls + rest.2.2)

/-- b64urlAlphabet is the alphabet of Go `base64.RawURLEncoding`: the
URL-safe base64 alphabet, used without padding. -/
def b64urlAlphabet : List Char :=
  "ABCDEFGHIJKLMNOPQRSTUVWXYZabcdefghijklmnopqrstuvwxyz0123456789-_".toList

/-- b64urlChar is the alphabet character for a 6-bit group value. -/
def b64urlChar (n : Nat) : Char :=
  b64urlAlphabet.getD n 'A'

/-- base64RawUrl embeds `base64.RawURLEncoding.EncodeToString` on a byte
list: 3-byte groups become 4 characters; a trailing 2-byte group becomes 3
characters and a trailing 1-byte group 2 characters, with no padding. -/
def base64RawUrl : List Nat → List Char
  | b1 :: b2 :: b3 :: rest =>
    b64urlChar (b1 / 4) ::
    b64urlChar ((b1 % 4) * 16 + b2 / 16) ::
    b64urlChar ((b2 % 16) * 4 + b3 / 64) ::
    b64urlChar (b3 % 64) ::
    base64RawUrl rest
  | [b1, b2] =>
    [b64urlChar (b1 / 4), b64urlChar ((b1 % 4) * 16 + b2 / 16), b64urlChar ((b2 % 16) * 4)]
  | [b1] =>
    [b64urlChar (b1 / 4), b64urlChar ((b1 % 4) * 16)]
  | [] => []

/-- w32 is the 32-bit modulus used by the SHA-256 word arithmetic. -/
def w32 : Nat := 4294967296

/-- rotr32 is a 32-bit right rotation. -/
def rotr32 (n a : Nat) : Nat :=
  ((a >>> n) ||| (a <<< (32 - n))) % w32

/-- sha256Primes lists the first 64 primes, from which FIPS 180-4 derives
both constant tables. -/
def sha256Primes : List Nat :=
  [2, 3, 5, 7, 11, 13, 17, 19, 23, 29, 31, 37, 41, 43, 47, 53,
   59, 61, 67, 71, 73, 79, 83, 89, 97, 101, 103, 107, 109, 113, 127, 131,
   137, 139, 149, 151, 157, 163, 167, 173, 179, 181, 191, 193, 197, 199, 211, 223,
   227, 229, 233, 239, 241, 251, 257, 263, 269, 271, 277, 281, 283, 293, 307, 311]

/-- icbrtGo bisects for the integer cube root, keeping lo cubed at most n
and hi cubed above n. -/
def icbrtGo (n : Nat) : Nat → Nat → Nat → Nat
  | lo, _, 0 => lo
  | lo, hi, fuel + 1 =>
    if hi ≤ lo + 1 then lo
    else
      let mid := (lo + hi) / 2
      if mid * mid * mid ≤ n then icbrtGo n mid hi fuel else icbrtGo n lo mid fuel

/-- icbrt is the integer cube root, the largest k with k cubed at most n,
for n below 2 ^ 120. -/
def icbrt (n : Nat) : Nat := icbrtGo n 0 (2 ^ 40) 50

/-- sha256K holds the 64 SHA-256 round constants of FIPS 180-4: the first
32 bits of the fractional parts of the cube roots of the first 64
primes. -/
def sha256K : List Nat :=
  sha256Primes.map (fun p => icbrt (p * 2 ^ 96) % w32)

/-- sha256H0 holds the 8 initial SHA-256 hash words of FIPS 180-4: the
first 32 bits of the fractional parts of the square roots of the first 8
primes. -/
def sha256H0 : List Nat :=
  (sha256Primes.take 8).map (fun p => Nat.sqrt (p * 2 ^ 64) % w32)

/-- sha256Pad appends the 0x80 marker, zero padding to 56 mod 64, and the
message bit length as 8 big-endian bytes. -/
def sha256Pad (msg : List Nat) : List Nat :=
  let len := msg.length
  let z := (119 - (len % 64)) % 64
  msg ++ 0x80 :: List.replicate z 0 ++
    (List.range 8).map (fun i => ((len * 8) >>> ((7 - i) * 8)) % 256)

/-- chunk64 splits a byte list into blocks of 64 bytes. -/
def chunk64 (l : List Nat) : List (List Nat) :=
  if h : l = [] then []
  else l.take 64 :: chunk64 (l.drop 64)
termination_by l.length
decreasing_by
  simp only [List.length_drop]
  have hpos : 0 < l.length := List.length_pos.mpr h
  omega

/-- sha256Schedule extends the 16 block words to the 64-word message
schedule. -/
def sha256Schedule (w0 : List Nat) : List Nat :=
  (List.range 48).foldl
    (fun w i =>
      let x15 := w.getD (i + 1) 0
      let x2 := w.getD (i + 14) 0
      let s0 := Nat.xor (rotr32 7 x15) (Nat.xor (rotr32 18 x15) (x15 >>> 3))
      let s1 := Nat.xor (rotr32 17 x2) (Nat.xor (rotr32 19 x2) (x2 >>> 10))
      w ++ [(w.getD i 0 + s0 + w.getD (i + 9) 0 + s1) % w32])
    w0

/-- sha256Round is one round of the SHA-256 compression function over the
state tuple (a, b, c, d, e, f, g, h). -/
def sha256Round (w : List Nat) (st : Nat × Nat × Nat × Nat × Nat × Nat × Nat × Nat)
    (i : Nat) : Nat × Nat × Nat × Nat × Nat × Nat × Nat × Nat :=
  let (a, b, c, d, e, f, g, h) := st
  let s1 := Nat.xor (rotr32 6 e) (Nat.xor (rotr32 11 e) (rotr32 25 e))
  let ch := Nat.xor (Nat.land e f) (Nat.land (w32 - 1 - e) g)
  let t1 := (h + s1 + ch + sha256K.getD i 0 + w.getD i 0) % w32
  let s0 := Nat.xor (rotr32 2 a) (Nat.xor (rotr32 13 a) (rotr32 22 a))
  let mj := Nat.xor (Nat.land a b) (Nat.xor (Nat.land a c) (Nat.land b c))
  let t2 := (s0 + mj) % w32
  ((t1 + t2) % w32, a, b, c, (d + t1) % w32, e, f, g)

/-- sha256Chunk folds one 64-byte block into the running hash state. -/
def sha256Chunk (hs : List Nat) (block : List Nat) : List Nat :=
  let w0 := (List.range 16).map (fun i =>
    ((block.getD (4 * i) 0) <<< 24 + (block.getD (4 * i + 1) 0) <<< 16 +
     (block.getD (4 * i + 2) 0) <<< 8 + block.getD (4 * i + 3) 0) % w32)
  let w := sha256Schedule w0
  let init := (hs.getD 0 0, hs.getD 1 0, hs.getD 2 0, hs.getD 3 0,
               hs.getD 4 0, hs.getD 5 0, hs.getD 6 0, hs.getD 7 0)
  let fin := (List.range 64).foldl (sha256Round w) init
  match fin with
  | (a, b, c, d, e, f, g, h) =>
    [(hs.getD 0 0 + a) % w32, (hs.getD 1 0 + b) % w32, (hs.getD 2 0 + c) % w32,
     (hs.getD 3 0 + d) % w32, (hs.getD 4 0 + e) % w32, (hs.getD 5 0 + f) % w32,
     (hs.getD 6 0 + g) % w32, (hs.getD 7 0 + h) % w32]

/-- sha256 embeds `sha256.Sum256` over a byte list, producing the 32 digest
bytes. -/
def sha256 (msg : List Nat) : List Nat :=
  let hs := (chunk64 (sha256Pad msg)).foldl sha256Chunk sha256H0
  hs.foldr
    (fun h acc => (h >>> 24) % 256 :: (h >>> 16) % 256 :: (h >>> 8) % 256 :: h % 256 :: acc)
    []

/-- charByte is the UTF-8 byte of an ASCII character, embedding the Go
`[]byte(codeVerifier)` conversion for the base64 alphabet output. -/
def charByte (c : Char) : Nat := c.toNat

/-- pkceVerifier embeds line 53 of part_011: the code verifier is the
unpadded URL-safe base64 encoding of the 64 random entropy bytes. -/
def pkceVerifier (entropy : List Nat) : List Char :=
  base64RawUrl entropy

/-- pkceChallenge embeds lines 56-57 of part_011: the code challenge is the
unpadded URL-safe base64 encoding of the SHA-256 digest of the verifier
string bytes. -/
def pkceChallenge (entropy : List Nat) : List Char :=
  base64RawUrl (sha256 ((pkceVerifier entropy).map charByte))

/-- urlSafeB64Char recognises the unpadded URL-safe base64 characters; the
padding and standard-alphabet characters +, / and = are all excluded. -/
def urlSafeB64Char (c : Char) : Bool :=
  (decide ('A' ≤ c) && decide (c ≤ 'Z')) ||
  (decide ('a' ≤ c) && decide (c ≤ 'z')) ||
  (decide ('0' ≤ c) && decide (c ≤ '9')) ||
  c == '-' || c == '_'

/-- CallbackQuery is the query string of the provider redirect hitting the
callback handler; each field is "" when the parameter is absent, as with
`r.URL.Query().Get`. -/
structure CallbackQuery where
  code : String
  error : String
  error_description : String
  deriving DecidableEq

/-- CallbackSignal is the at-most-one completion signal the callback
handler delivers: the authorization code on `codeCh`, or a failure message
on `errCh`. -/
inductive CallbackSignal where
  | authCode (code : String)
  | authFailure (msg : String)
  deriving DecidableEq

/-- handleCallback embeds the callback handler (part_011 lines 75-88): an
empty `code` parameter signals failure carrying `error_description` (or a
generic message when that too is empty); otherwise the code is signalled. -/
def handleCallback (q : CallbackQuery) : CallbackSignal :=
  if q.code = "" then
    .authFailure (if q.error_description = "" then "no authorization code received"
                  else q.error_description)
  else
    .authCode q.code

/-- CallbackEvent is what the `select` in Login observes: a redirect
arrived, or the 5-minute window elapsed. -/
inductive CallbackEvent where
  | redirect (q : CallbackQuery)
  | timeout

/-- LoginError is the error taxonomy of the tail of Login. -/
inductive LoginError where
  | authorizationFailed (msg : String)
  | authorizationTimeout
  | exchangeFailed (e : ExchangeError)
  deriving DecidableEq

/-- LoginOutcome packages the tail of one Login call: the result, how many
authorization-code-grant requests reached the token endpoint, and the
token-file state afterwards. -/
structure LoginOutcome where
  result : Except LoginError Unit
  exchangeCalls : Nat
  store : FileState

/-- loginAfterCallback embeds Login from the callback wait onwards
(part_011 lines 110-136): a timeout or failure signal aborts before any
token-endpoint call; a code signal is exchanged via `doTokenRequest`, and
on success the token is persisted. `exchNet` maps the received code to the
token-endpoint response for the code-grant request. -/
def loginAfterCallback (now : Int) (ev : CallbackEvent)
    (exchNet : String → HttpResult) (fs : FileState) : LoginOutcome :=
  match ev with
  | .timeout => ⟨.error .authorizationTimeout, 0, fs⟩
  | .redirect q =>
    match handleCallback q with
    | .authFailure msg => ⟨.error (.authorizationFailed msg), 0, fs⟩
    | .authCode code =>
      match doTokenRequest now (exchNet code) with
      | .error e => ⟨.error (.exchangeFailed e), 1, fs⟩
      | .ok t => ⟨.ok (), 1, saveToken t fs⟩

/-- LoginEvent names the observable events around the listener start in
Login: the `go server.ListenAndServe()` statement at line 98, the instant
the listener socket is bound and accepting, and the `openBrowser` call at
line 106. -/
inductive LoginEvent where
  | spawnListener
  | listenerBound
  | browserOpened
  deriving DecidableEq, BEq

/-- mainThreadEvents is the order of the main goroutine of Login: spawn the
listener goroutine, then call openBrowser. -/
def mainThreadEvents : List LoginEvent := [.spawnListener, .browserOpened]

/-- listenerThreadEvents is the order of the listener goroutine: bind the
port and start accepting. -/
def listenerThreadEvents : List LoginEvent := [.listenerBound]

/-- isMergeOf decides whether a trace is an order-preserving interleaving
of two thread-local event sequences. -/
def isMergeOf : List LoginEvent → List LoginEvent → List LoginEvent → Bool
  | [], [], [] => true
  | _ :: _, _, [] => false
  | [], _ :: _, [] => false
  | xs, ys, z :: zs =>
    (match xs with
     | x :: tl => x == z && isMergeOf tl ys zs
     | [] => false) ||
    (match ys with
     | y :: tl => y == z && isMergeOf xs tl zs
     | [] => false)

/-- eventPrecedes decides whether the first occurrence of `a` comes before
the first occurrence of `b` in the trace. -/
def eventPrecedes (a b : LoginEvent) (t : List LoginEvent) : Bool :=
  decide (t.indexOf a < t.indexOf b)

/-- validLoginTrace decides whether a trace is an execution the Go runtime
can produce for the listener start of Login: an interleaving of the two
goroutines in which the goroutine is spawned before it binds the port. -/
def validLoginTrace (t : List LoginEvent) : Bool :=
  isMergeOf mainThreadEvents listenerThreadEvents t &&
  eventPrecedes .spawnListener .listenerBound t

/-- loadToken_saveToken is the store round trip: loading right after saving
yields the saved token, whatever the file held before. -/
theorem loadToken_saveToken (t : Token) (fs : FileState) :
    loadToken (saveToken t fs) = .ok t := rfl

/-- runGetTokenCalls_fresh: while the stored token is fresh, every call in
a serialised batch returns its access token, issues no refresh request and
leaves the file untouched. -/
theorem runGetTokenCalls_fresh (cid cs : String) (now : Int) (net : Network)
    (fs : FileState) (tok : Token)
    (hload : loadToken fs = .ok tok) (hfresh : ¬ tok.expiresAt - 30 < now) :
    ∀ m, runGetTokenCalls cid cs now net m fs =
      (List.replicate m (.ok tok.accessToken), fs, 0) := by
  intro m
  induction m with
  | zero => simp [runGetTokenCalls]
  | succ k ih =>
    have hstep : GetToken cid cs now net fs = ⟨.ok tok.accessToken, fs, 0⟩ := by
      simp [GetToken, hload, hfresh]
    simp [runGetTokenCalls, hstep, ih, List.replicate_succ]

/-- Claim C1: any interleaving of concurrent GetToken calls against an
expired stored token is a serial order of atomic calls, because each call
holds `tokenMu` for its whole body; in every such serial order exactly one
refresh request is issued, every caller returns the identical refreshed
access token, and the final store holds the fully-written refreshed token
(no caller ever sees a partial update). -/
theorem getToken_concurrent_single_refresh
    (cid cs : String) (now : Int) (net : Network) (fs : FileState)
    (tok tnew : Token) (n : Nat)
    (hload : loadToken fs = .ok tok)
    (hexpired : tok.expiresAt - 30 < now)
    (hrefresh : refreshToken now net cid cs tok.refreshToken = .ok tnew)
    (hfresh : ¬ tnew.expiresAt - 30 < now)
    (hn : 1 ≤ n) :
    runGetTokenCalls cid cs now net n fs =
      (List.replicate n (.ok tnew.accessToken), saveToken tnew fs, 1) := by
  obtain ⟨m, rfl⟩ : ∃ m, n = m + 1 := ⟨n - 1, by omega⟩
  have hstep : GetToken cid cs now net fs = ⟨.ok tnew.accessToken, saveToken tnew fs, 1⟩ := by
    simp [GetToken, hload, hexpired, hrefresh]
  have hrest := runGetTokenCalls_fresh cid cs now net (saveToken tnew fs) tnew
    (loadToken_saveToken tnew fs) hfresh m
  simp [runGetTokenCalls, hstep, hrest, List.replicate_succ]

/-- Claim C1 witness: 20 serialised callers at time 200 against a token
expired at 100; the endpoint grants a token with expires_in 3600; exactly
one refresh happens and all 20 calls return the new access token. -/
theorem getToken_concurrent_single_refresh_witness :
    runGetTokenCalls "cid" "cs" 200
        (fun _ _ _ => .response 200 (.valid ⟨"new-access", "new-refresh", 3600, "", ""⟩))
        20 (saveToken ⟨"old-access", "old-refresh", 100⟩ none) =
      (List.replicate 20 (.ok "new-access"),
       saveToken ⟨"new-access", "new-refresh", 3800⟩
         (saveToken ⟨"old-access", "old-refresh", 100⟩ none), 1) :=
  getToken_concurrent_single_refresh "cid" "cs" 200
    (fun _ _ _ => .response 200 (.valid ⟨"new-access", "new-refresh", 3600, "", ""⟩))
    (saveToken ⟨"old-access", "old-refresh", 100⟩ none)
    ⟨"old-access", "old-refresh", 100⟩ ⟨"new-access", "new-refresh", 3800⟩ 20
    (by rfl) (by decide) (by rfl) (by decide) (by decide)

/-- Claim C2 counterexample: at the exact boundary instant
now = ExpiresAt - 30 (here now = 70, ExpiresAt = 100) the claim requires a
refresh, but GetToken issues zero refresh calls and returns the stored
access token, because `time.Now().After` is a strict comparison. -/
theorem getToken_refresh_boundary_cex :
    ((100 : Int) - 30 ≤ 70) ∧
    (GetToken "cid" "cs" 70 (fun _ _ _ => .transportFailure)
        (saveToken ⟨"stored-access", "stored-refresh", 100⟩ none)).refreshCalls = 0 ∧
    (GetToken "cid" "cs" 70 (fun _ _ _ => .transportFailure)
        (saveToken ⟨"stored-access", "stored-refresh", 100⟩ none)).result =
      .ok "stored-access" :=
  ⟨by decide, rfl, rfl⟩

/-- Claim C2 (amended): GetToken performs the refresh grant exactly when
now is strictly later than ExpiresAt - 30 seconds; at the boundary instant
and earlier it returns the stored AccessToken with zero refresh calls and
an unchanged store. -/
theorem getToken_refresh_strict_boundary
    (cid cs : String) (now : Int) (net : Network) (fs : FileState) (tok : Token)
    (hload : loadToken fs = .ok tok) :
    ((GetToken cid cs now net fs).refreshCalls = 1 ↔ tok.expiresAt - 30 < now) ∧
    (now ≤ tok.expiresAt - 30 →
      GetToken cid cs now net fs = ⟨.ok tok.accessToken, fs, 0⟩) := by
  by_cases h : tok.expiresAt - 30 < now
  · constructor
    · rcases href : refreshToken now net cid cs tok.refreshToken with e | t <;>
        simp [GetToken, hload, h, href]
    · intro hle
      exact absurd h (by omega)
  · constructor
    · simp [GetToken, hload, h]
    · intro hle
      simp [GetToken, hload, h]

/-- Claim C2 witness: a token fresh until 1000 queried at time 500 yields
zero refresh calls and the stored access token. -/
theorem getToken_refresh_strict_boundary_witness :
    GetToken "cid" "cs" 500 (fun _ _ _ => .transportFailure)
        (saveToken ⟨"acc", "ref", 1000⟩ none) =
      ⟨.ok "acc", saveToken ⟨"acc", "ref", 1000⟩ none, 0⟩ :=
  (getToken_refresh_strict_boundary "cid" "cs" 500 (fun _ _ _ => .transportFailure)
    (saveToken ⟨"acc", "ref", 1000⟩ none) ⟨"acc", "ref", 1000⟩ rfl).2 (by decide)

/-- Claim C3: when the refresh grant fails, GetToken returns the wrapped
refresh failure and the persisted token store is exactly what it was
before the call. -/
theorem getToken_failed_refresh_preserves_store
    (cid cs : String) (now : Int) (net : Network) (fs : FileState) (tok : Token)
    (e : ExchangeError)
    (hload : loadToken fs = .ok tok)
    (hexpired : tok.expiresAt - 30 < now)
    (hrefresh : refreshToken now net cid cs tok.refreshToken = .error e) :
    GetToken cid cs now net fs = ⟨.error (.refreshFailed e), fs, 1⟩ := by
  simp [GetToken, hload, hexpired, hrefresh]

/-- Claim C3 witness: an expired token whose refresh dies on the wire
leaves the stored token file byte-identical. -/
theorem getToken_failed_refresh_preserves_store_witness :
    GetToken "cid" "cs" 200 (fun _ _ _ => .transportFailure)
        (saveToken ⟨"acc", "ref", 100⟩ none) =
      ⟨.error (.refreshFailed .transportFailure), saveToken ⟨"acc", "ref", 100⟩ none, 1⟩ :=
  getToken_failed_refresh_preserves_store "cid" "cs" 200
    (fun _ _ _ => .transportFailure) (saveToken ⟨"acc", "ref", 100⟩ none)
    ⟨"acc", "ref", 100⟩ .transportFailure (by rfl) (by decide) (by rfl)

/-- Claim C4: Login spawns the ListenAndServe goroutine and then calls
openBrowser with no readiness synchronisation, so the Go runtime may
schedule the browser launch before the listener socket is bound: the trace
[spawnListener, browserOpened, listenerBound] is a valid execution in
which the listener is not yet accepting when the browser is launched. -/
theorem login_listener_browser_race :
    validLoginTrace [.spawnListener, .browserOpened, .listenerBound] = true ∧
    eventPrecedes .listenerBound .browserOpened
      [.spawnListener, .browserOpened, .listenerBound] = false := by
  decide

/-- b64ExtraLen gives the number of output characters contributed by a
trailing group of r bytes (r < 3) in unpadded base64. -/
def b64ExtraLen (r : Nat) : Nat := if r = 0 then 0 else r + 1

/-- base64RawUrl_length: the unpadded encoding of n bytes has
4 * (n / 3) + b64ExtraLen (n % 3) characters. -/
theorem base64RawUrl_length (l : List Nat) :
    (base64RawUrl l).length = 4 * (l.length / 3) + b64ExtraLen (l.length % 3) := by
  induction l using base64RawUrl.induct
  next b1 b2 b3 rest ih =>
    simp only [base64RawUrl, List.length_cons]
    rw [ih]
    have hx : b64ExtraLen ((rest.length + 1 + 1 + 1) % 3) = b64ExtraLen (rest.length % 3) := by
      congr 1
      omega
    rw [hx]
    omega
  all_goals simp [base64RawUrl, b64ExtraLen]

/-- b64urlChar_mem_all: the first 64 alphabet characters are URL-safe. -/
theorem b64urlChar_mem_all : ∀ i : Fin 64, urlSafeB64Char (b64urlChar i.val) = true := by
  decide

/-- b64urlChar_urlSafe: every character the encoder can emit is an
unpadded URL-safe base64 character. -/
theorem b64urlChar_urlSafe (n : Nat) : urlSafeB64Char (b64urlChar n) = true := by
  rcases Nat.lt_or_ge n 64 with h | h
  · exact b64urlChar_mem_all ⟨n, h⟩
  · have hd : b64urlChar n = 'A' := by
      unfold b64urlChar
      apply List.getD_eq_default
      have hlen : b64urlAlphabet.length = 64 := by rfl
      omega
    rw [hd]
    rfl

/-- base64RawUrl_chars: every character of an encoding is URL-safe. -/
theorem base64RawUrl_chars (l : List Nat) :
    ∀ c ∈ base64RawUrl l, urlSafeB64Char c = true := by
  induction l using base64RawUrl.induct with
  | case1 b1 b2 b3 rest ih =>
    intro c hc
    simp only [base64RawUrl, List.mem_cons] at hc
    rcases hc with rfl | rfl | rfl | rfl | hc
    · exact b64urlChar_urlSafe _
    · exact b64urlChar_urlSafe _
    · exact b64urlChar_urlSafe _
    · exact b64urlChar_urlSafe _
    · exact ih c hc
  | case2 b1 b2 =>
    intro c hc
    simp only [base64RawUrl, List.mem_cons, List.not_mem_nil, or_false] at hc
    rcases hc with rfl | rfl | rfl <;> exact b64urlChar_urlSafe _
  | case3 b1 =>
    intro c hc
    simp only [base64RawUrl, List.mem_cons, List.not_mem_nil, or_false] at hc
    rcases hc with rfl | rfl <;> exact b64urlChar_urlSafe _
  | case4 =>
    intro c hc
    simp [base64RawUrl] at hc

/-- Claim C5: for every 64-byte entropy input, the PKCE verifier has
length 86 (inside [43, 128]), consists only of unpadded URL-safe base64
characters, and the challenge is the unpadded URL-safe base64 encoding of
the SHA-256 digest of the verifier string. -/
theorem login_pkce_properties (entropy : List Nat)
    (hlen : entropy.length = 64) (_hbytes : ∀ b ∈ entropy, b < 256) :
    43 ≤ (pkceVerifier entropy).length ∧
    (pkceVerifier entropy).length ≤ 128 ∧
    (∀ c ∈ pkceVerifier entropy, urlSafeB64Char c = true) ∧
    pkceChallenge entropy = base64RawUrl (sha256 ((pkceVerifier entropy).map charByte)) := by
  have h86 : (pkceVerifier entropy).length = 86 := by
    unfold pkceVerifier
    rw [base64RawUrl_length, hlen]
    rfl
  exact ⟨by omega, by omega, base64RawUrl_chars entropy, rfl⟩

/-- Claim C5 witness: the all-zero 64-byte entropy input satisfies the
hypotheses and hence the PKCE properties. -/
theorem login_pkce_properties_witness :
    43 ≤ (pkceVerifier (List.replicate 64 0)).length ∧
    (pkceVerifier (List.replicate 64 0)).length ≤ 128 ∧
    (∀ c ∈ pkceVerifier (List.replicate 64 0), urlSafeB64Char c = true) ∧
    pkceChallenge (List.replicate 64 0) =
      base64RawUrl (sha256 ((pkceVerifier (List.replicate 64 0)).map charByte)) :=
  login_pkce_properties (List.replicate 64 0) (by decide) (by decide)

/-- Claim C6 counterexample: a response with the 2xx status 201 and a
perfectly parseable token body does not yield a Token; doTokenRequest
compares against exactly 200 and fails with the exchange error. -/
theorem doTokenRequest_status_cex :
    (201 / 100 = 2) ∧
    doTokenRequest 0 (.response 201 (.valid ⟨"fresh-access", "fresh-refresh", 3600, "", ""⟩)) =
      .error (.tokenExchangeFailed 201 "" "") :=
  ⟨rfl, rfl⟩

/-- Claim C6 (amended): a status-200 response with a parseable body yields
a Token with ExpiresAt = now + expires_in; any other status (2xx included)
fails with the exchange error carrying the decoded error and
error_description fields (zero values when the error body is not decodable);
a 200 response with an unparseable body fails with the decode error; a
connection-level failure fails with the transport error. -/
theorem doTokenRequest_cases (now : Int) (s : Nat) (j : TokenResponseBody) :
    doTokenRequest now .transportFailure = .error .transportFailure ∧
    (s ≠ 200 → doTokenRequest now (.response s (.valid j)) =
      .error (.tokenExchangeFailed s j.error j.error_description)) ∧
    (s ≠ 200 → doTokenRequest now (.response s .malformed) =
      .error (.tokenExchangeFailed s "" "")) ∧
    doTokenRequest now (.response 200 .malformed) = .error .responseDecodeFailed ∧
    doTokenRequest now (.response 200 (.valid j)) =
      .ok ⟨j.access_token, j.refresh_token, now + j.expires_in⟩ := by
  refine ⟨rfl, ?_, ?_, rfl, rfl⟩ <;> intro h <;> simp [doTokenRequest, h]

/-- Claim C6 witness: a 404 with a decodable error body carries both error
fields; a 404 with garbage carries the zero values. -/
theorem doTokenRequest_cases_witness :
    doTokenRequest 0 (.response 404 (.valid ⟨"", "", 0, "invalid_grant", "bad code"⟩)) =
      .error (.tokenExchangeFailed 404 "invalid_grant" "bad code") ∧
    doTokenRequest 0 (.response 404 .malformed) = .error (.tokenExchangeFailed 404 "" "") :=
  ⟨(doTokenRequest_cases 0 404 ⟨"", "", 0, "invalid_grant", "bad code"⟩).2.1 (by decide),
   (doTokenRequest_cases 0 404 ⟨"", "", 0, "invalid_grant", "bad code"⟩).2.2.1 (by decide)⟩

/-- Claim C7: loadToken fails with the not-found error exactly when the
token file is absent, fails with the distinct parse error exactly when the
file exists but its content does not parse as a valid Token (returning an
error rather than panicking on every malformed content), succeeds exactly
on parseable content, and GetToken on a missing file fails with the
wrapped not-logged-in error. -/
theorem loadToken_error_classification (fs : FileState) :
    (loadToken fs = .error .fileNotFound ↔ fs = none) ∧
    (loadToken fs = .error .parseError ↔ ∃ c, fs = some c ∧ parseFileContent c = none) ∧
    (∀ t : Token, loadToken fs = .ok t ↔ ∃ c, fs = some c ∧ parseFileContent c = some t) ∧
    LoadError.fileNotFound ≠ LoadError.parseError ∧
    loadToken (some .malformed) = .error .parseError ∧
    (∀ cid cs now net,
      (GetToken cid cs now net none).result = .error (.notLoggedIn .fileNotFound)) := by
  refine ⟨?_, ?_, ?_, by decide, rfl, fun cid cs now net => rfl⟩
  · cases fs with
    | none => simp [loadToken]
    | some c =>
      cases hc : parseFileContent c <;> simp [loadToken, hc]
  · cases fs with
    | none => simp [loadToken]
    | some c =>
      cases hc : parseFileContent c <;> simp [loadToken, hc]
  · intro t
    cases fs with
    | none => simp [loadToken]
    | some c =>
      cases hc : parseFileContent c <;> simp [loadToken, hc]

/-- Claim C8: a redirect carrying error=access_denied and no code makes
the flow fail with the authorization-failure error; the token endpoint is
never called and nothing is persisted. -/
theorem login_access_denied_no_exchange (desc : String) (now : Int)
    (exchNet : String → HttpResult) (fs : FileState) :
    (loginAfterCallback now (.redirect ⟨"", "access_denied", desc⟩) exchNet fs).exchangeCalls
        = 0 ∧
    (∃ msg, (loginAfterCallback now (.redirect ⟨"", "access_denied", desc⟩) exchNet fs).result
        = .error (.authorizationFailed msg)) ∧
    (loginAfterCallback now (.redirect ⟨"", "access_denied", desc⟩) exchNet fs).store = fs := by
  exact ⟨rfl, ⟨_, rfl⟩, rfl⟩

/-- Claim C9: saving a token and loading it back yields a field-identical
Token (timestamps held at second precision in this model), for any prior
file content, since save overwrites the file. -/
theorem saveToken_loadToken_roundtrip (t : Token) (fs : FileState) :
    loadToken (saveToken t fs) = .ok t :=
  loadToken_saveToken t fs

/-- Claim C10: while the stored token is more than 30 seconds from expiry,
the outcome of GetToken does not depend on the credentials or on the
network at all: any two calls agree, return the stored access token,
issue zero refresh calls and leave the store unchanged. -/
theorem getToken_fresh_credential_independence
    (cid1 cs1 cid2 cs2 : String) (now : Int) (net1 net2 : Network)
    (fs : FileState) (tok : Token)
    (hload : loadToken fs = .ok tok)
    (hfresh : 30 < tok.expiresAt - now) :
    GetToken cid1 cs1 now net1 fs = GetToken cid2 cs2 now net2 fs ∧
    GetToken cid1 cs1 now net1 fs = ⟨.ok tok.accessToken, fs, 0⟩ := by
  have h : ¬ tok.expiresAt - 30 < now := by omega
  constructor <;> simp [GetToken, hload, h]

/-- Claim C10 witness: two calls with different credentials and different
network oracles over a token 570 seconds from expiry coincide. -/
theorem getToken_fresh_credential_independence_witness :
    GetToken "cid1" "cs1" 430 (fun _ _ _ => .transportFailure)
        (saveToken ⟨"acc", "ref", 1000⟩ none) =
      GetToken "cid2" "cs2" 430
        (fun _ _ _ => .response 200 (.valid ⟨"x", "y", 1, "", ""⟩))
        (saveToken ⟨"acc", "ref", 1000⟩ none) ∧
    GetToken "cid1" "cs1" 430 (fun _ _ _ => .transportFailure)
        (saveToken ⟨"acc", "ref", 1000⟩ none) =
      ⟨.ok "acc", saveToken ⟨"acc", "ref", 1000⟩ none, 0⟩ :=
  getToken_fresh_credential_independence "cid1" "cs1" "cid2" "cs2" 430
    (fun _ _ _ => .transportFailure)
    (fun _ _ _ => .response 200 (.valid ⟨"x", "y", 1, "", ""⟩))
    (saveToken ⟨"acc", "ref", 1000⟩ none) ⟨"acc", "ref", 1000⟩ rfl (by decide)

end BBranchAuth
